import Mathlib

/-!
Verification of the crystalchess-backend booking & payment core.

Shallow embedding of the booking service (`BookingService` in
`src/modules/bookings/booking.service.js`, in the corpus as
`src/unnamed/part_009`) and the payment service
(`src/modules/payments/payment.service.js`).

Modelling conventions:
* Monetary amounts (`entryFee`, `amountPaid`, concession values) are Prisma
  decimals run through JavaScript `Number(...)`; they are modelled as exact
  rationals (`ℚ`), which matches the decimal semantics intended for the
  amounts appearing in the specification.
* `currentBookings` is an integer column that Prisma `increment`/`decrement`
  mutate without any clamping, so it is modelled as `ℤ`.
* JavaScript truthiness is modelled explicitly where the source relies on
  it: `govtConcessionType && govtConcessionValue` (a nullable enum string
  and a number), `if (event.maxCapacity)` (nullable integer, `0` falsy),
  `participantData.categoryCode` (nullable string, `""` falsy),
  `category.ageLimit` (nullable integer, `0` falsy).
* A `throw` in the source aborts the request before any write, and every
  multi-write block in the source is a single `prisma.$transaction`; an
  operation is therefore embedded as a pure function returning the new
  state on success and, on the error paths, returning the unchanged input
  state (for the payment service we return the state in both cases so that
  "no mutation on failure" is a provable equation, not a convention).
* `JSON.stringify` payloads stored in `gatewayResponse` are modelled by an
  injective inductive encoding `GatewayResponseJson`.
* The Razorpay SDK and `crypto.createHmac("sha256", secret)` are external
  libraries: they enter the model as function parameters (`hmac` for the
  keyed hash, `gw` for `razorpay.orders.create`), exactly as the service
  code treats them — opaque calls whose results it consumes.
-/

namespace CrystalChess

/-- Enumeration `EVENT_STATUS` from `config/constants.js`. -/
inductive EventStatus
  | UPCOMING
  | IN_PROGRESS
  | COMPLETED
  | CANCELLED
deriving DecidableEq, Repr

/-- Enumeration `BOOKING_STATUS` from `config/constants.js`. -/
inductive BookingStatus
  | PENDING
  | CONFIRMED
  | CANCELLED
  | COMPLETED
deriving DecidableEq, Repr

/-- Enumeration `PAYMENT_STATUS` from `config/constants.js` (note `COMPLETED` is an
alias for the same string `"PAID"`, so it is not a separate constructor). -/
inductive PaymentStatus
  | PENDING
  | PAID
  | REFUNDED
  | FAILED
deriving DecidableEq, Repr

/-- The government concession type stored on an event
(`govtConcessionType`); the column is nullable, so an event carries an
`Option ConcessionType`.  The string `"NONE"` is truthy in JavaScript,
hence kept as a constructor distinct from the null case. -/
inductive ConcessionType
  | NONE
  | RUPEES
  | PERCENTAGE
deriving DecidableEq, Repr

/-- The per-participant data `createBooking` collects for the price
calculation: `{ participantId, isGovtStudent: participant.isGovtStudent || false }`. -/
structure ParticipantDetail where
  participantId : ℕ
  isGovtStudent : Bool
deriving DecidableEq, Repr

/-- The record returned by `calculateBookingAmount`. -/
structure AmountBreakdown where
  eventFee : ℚ
  platformFee : ℚ
  totalAmount : ℚ
  concessionApplied : ℚ
  govtStudentCount : ℕ
  participantCount : ℕ
deriving DecidableEq, Repr

/-- One iteration of the `for (const participant of participantDetails)`
loop in `calculateBookingAmount`; the accumulator is
`(totalEventFee, totalConcession, govtStudentCount)`.  The guard
`participant.isGovtStudent && govtConcessionType && govtConcessionValue`
requires the flag, a non-null type string (even `"NONE"` is truthy) and a
nonzero value. -/
def bookingFeeStep (fee : ℚ) (govtConcessionType : Option ConcessionType)
    (govtConcessionValue : ℚ) (acc : ℚ × ℚ × ℕ) (participant : ParticipantDetail) :
    ℚ × ℚ × ℕ :=
  if participant.isGovtStudent ∧ govtConcessionType.isSome ∧ govtConcessionValue ≠ 0 then
    match govtConcessionType with
    | some .RUPEES =>
        (acc.1 + max 0 (fee - govtConcessionValue), acc.2.1 + govtConcessionValue, acc.2.2 + 1)
    | some .PERCENTAGE =>
        let discount := fee * govtConcessionValue / 100
        (acc.1 + max 0 (fee - discount), acc.2.1 + discount, acc.2.2 + 1)
    | _ => (acc.1 + fee, acc.2.1, acc.2.2 + 1)
  else
    (acc.1 + fee, acc.2.1, acc.2.2)

/-- Function `BookingService.calculateBookingAmount`.  `platformFeePerParticipant`
is the resolved constant `config.fees?.offlinePlatformFee || 10`. -/
def calculateBookingAmount (entryFee : ℚ) (participantDetails : List ParticipantDetail)
    (isOnline : Bool) (govtConcessionType : Option ConcessionType)
    (govtConcessionValue : ℚ) (platformFeePerParticipant : ℚ) : AmountBreakdown :=
  let acc := participantDetails.foldl
    (bookingFeeStep entryFee govtConcessionType govtConcessionValue) (0, 0, 0)
  let platformFee : ℚ :=
    if isOnline then 0 else platformFeePerParticipant * participantDetails.length
  { eventFee := acc.1
    platformFee := platformFee
    totalAmount := acc.1 + platformFee
    concessionApplied := acc.2.1
    govtStudentCount := acc.2.2
    participantCount := participantDetails.length }

/-- Modelled from the spec (§4.1 Pricing Engine), reference definition for
one participant's fee: start from `entryFee`; if the participant is
government-student-eligible and a concession policy is set (type `RUPEES`
or `PERCENTAGE`), subtract the flat value resp. `value` percent of
`entryFee`, floored at 0. -/
def specParticipantFee (entryFee : ℚ) (isGovtStudent : Bool)
    (ctype : Option ConcessionType) (cvalue : ℚ) : ℚ :=
  match ctype with
  | some .RUPEES => if isGovtStudent then max 0 (entryFee - cvalue) else entryFee
  | some .PERCENTAGE =>
      if isGovtStudent then max 0 (entryFee - entryFee * cvalue / 100) else entryFee
  | _ => entryFee

/-- Modelled from the spec (§4.1): `eventFee` is the sum of all
per-participant fees. -/
def specEventFee (entryFee : ℚ) (participants : List ParticipantDetail)
    (ctype : Option ConcessionType) (cvalue : ℚ) : ℚ :=
  (participants.map (fun p => specParticipantFee entryFee p.isGovtStudent ctype cvalue)).sum

/-- Modelled from the spec (§4.1): platform fee is 0 for online events,
else the offline constant times the participant count. -/
def specPlatformFee (isOnline : Bool) (platformFeePerParticipant : ℚ)
    (participantCount : ℕ) : ℚ :=
  if isOnline then 0 else platformFeePerParticipant * participantCount

/-- Modelled from the spec (§4.1): `totalAmount = eventFee + platformFee`. -/
def specTotalAmount (entryFee : ℚ) (participants : List ParticipantDetail)
    (isOnline : Bool) (ctype : Option ConcessionType) (cvalue : ℚ)
    (platformFeePerParticipant : ℚ) : ℚ :=
  specEventFee entryFee participants ctype cvalue +
    specPlatformFee isOnline platformFeePerParticipant participants.length

/-- The per-participant fee the source loop actually adds to
`totalEventFee` in one iteration. -/
def codeParticipantFee (fee : ℚ) (ctype : Option ConcessionType) (cvalue : ℚ)
    (isGovtStudent : Bool) : ℚ :=
  if isGovtStudent ∧ ctype.isSome ∧ cvalue ≠ 0 then
    match ctype with
    | some .RUPEES => max 0 (fee - cvalue)
    | some .PERCENTAGE => max 0 (fee - fee * cvalue / 100)
    | _ => fee
  else fee

/-- An event category as read by `createBooking`
(`event.categories[i].category`): the code and a nullable age limit. -/
structure EventCategory where
  categoryCode : String
  ageLimit : Option ℕ
deriving DecidableEq, Repr

/-- The `Event` fields the booking and payment core reads. -/
structure Event where
  eventName : String
  eventStatus : EventStatus
  maxCapacity : Option ℤ
  currentBookings : ℤ
  entryFee : ℚ
  isOnline : Bool
  govtConcessionType : Option ConcessionType
  govtConcessionValue : ℚ
  categories : List EventCategory
deriving DecidableEq, Repr

/-- A stored participant row of the requesting user; `age` stands for
`DateUtil.calculateAge(participant.dateOfBirth)` evaluated at booking
time (the claims do not depend on the date arithmetic itself). -/
structure Participant where
  participantId : ℕ
  isGovtStudent : Bool
  age : ℕ
deriving DecidableEq, Repr

/-- One entry of `bookingData.participants`: a participant id and an
optional category code. -/
structure ReqParticipant where
  participantId : ℕ
  categoryCode : Option String
deriving DecidableEq, Repr

/-- A persisted `Booking` row (the fields the claims touch);
`participantIds` are the `BookingParticipant` links of the booking. -/
structure Booking where
  bookingId : ℕ
  userId : ℕ
  bookingReference : String
  bookingStatus : BookingStatus
  paymentStatus : PaymentStatus
  amountPaid : ℚ
  participantIds : List ℕ
deriving DecidableEq, Repr

/-- Function `BookingService.validateParticipantForCategory`: only the age check
remains in the source (`category.ageLimit && age > category.ageLimit`,
`0` being a falsy limit); gender restrictions were removed.  Returns the
`isValid` flag. -/
def validateParticipantForCategory (participant : Participant) (category : EventCategory) :
    Bool :=
  match category.ageLimit with
  | some limit => if limit ≠ 0 ∧ participant.age > limit then false else true
  | none => true

/-- The capacity guard of `createBooking`:
`if (event.maxCapacity) { const availableSlots = maxCapacity - currentBookings;
if (availableSlots < participants.length) throw INSUFFICIENT_SLOTS }` —
note `maxCapacity` is truthy only when non-null and nonzero. -/
def slotsInsufficient (event : Event) (requestedCount : ℕ) : Bool :=
  match event.maxCapacity with
  | some m => if m = 0 then false else decide (m - event.currentBookings < (requestedCount : ℤ))
  | none => false

/-- The participant-validation loop of `createBooking`: each requested
participant is looked up among the caller's own rows
(`findFirst { participantId, userId }`), the optional category is
validated (`participantData.categoryCode && event.categories?.length > 0`),
and `{ participantId, isGovtStudent }` is collected for pricing.  Error
messages carrying interpolated names are abbreviated to a fixed text. -/
def collectParticipantDetails (owned : List Participant) (categories : List EventCategory) :
    List ReqParticipant → Except String (List ParticipantDetail)
  | [] => .ok []
  | req :: rest =>
    match owned.find? (fun p => p.participantId == req.participantId) with
    | none => .error "Participant not found"
    | some participant =>
      let catCheck : Except String Unit :=
        match req.categoryCode with
        | some code =>
          if code ≠ "" ∧ categories.length > 0 then
            match categories.find? (fun cat => cat.categoryCode == code) with
            | none => .error "Category not available for this event"
            | some category =>
              if validateParticipantForCategory participant category then .ok ()
              else .error "participant exceeds the category age limit"
          else .ok ()
        | none => .ok ()
      match catCheck with
      | .error e => .error e
      | .ok _ =>
        match collectParticipantDetails owned categories rest with
        | .error e => .error e
        | .ok details =>
            .ok ({ participantId := participant.participantId,
                   isGovtStudent := participant.isGovtStudent } :: details)

/-- Function `BookingService.createBooking`.  `platformFeePerParticipant` is the
config constant, `bookingReference` the value produced by
`generateBookingReference()` (random and date-dependent, hence a
parameter) and `bookingId` the autoincrement id.  Every `throw` in the
source happens before the `prisma.$transaction`, and that transaction
performs the booking insert, the participant-link inserts and the
`currentBookings` increment atomically; the embedding therefore returns
either an error — leaving every row and the counter untouched — or the
updated event together with the new `PENDING/PENDING` booking row. -/
def createBooking (platformFeePerParticipant : ℚ) (bookingReference : String)
    (bookingId userId : ℕ) (owned : List Participant) (event : Event)
    (participants : List ReqParticipant) : Except String (Event × Booking) :=
  if event.eventStatus ≠ .UPCOMING then
    .error "Bookings are only available for upcoming events"
  else if slotsInsufficient event participants.length then
    .error "Insufficient slots available"
  else
    match collectParticipantDetails owned event.categories participants with
    | .error e => .error e
    | .ok participantDetails =>
      let amounts := calculateBookingAmount event.entryFee participantDetails event.isOnline
        event.govtConcessionType event.govtConcessionValue platformFeePerParticipant
      .ok ({ event with currentBookings := event.currentBookings + participants.length },
           { bookingId := bookingId
             userId := userId
             bookingReference := bookingReference
             bookingStatus := .PENDING
             paymentStatus := .PENDING
             amountPaid := amounts.totalAmount
             participantIds := participants.map (fun p => p.participantId) })

/-- Function `BookingService.cancelBooking` (ownership lookup already resolved to
the booking row).  The source rejects `CANCELLED` and `COMPLETED`
bookings before any write; otherwise one transaction sets
`bookingStatus = CANCELLED`, decrements `currentBookings` by the number
of participant links, and — only when `paymentStatus` was `PAID` — sets
`paymentStatus = REFUNDED`. -/
def cancelBooking (event : Event) (booking : Booking) : Except String (Event × Booking) :=
  if booking.bookingStatus = .CANCELLED then .error "Booking is already cancelled"
  else if booking.bookingStatus = .COMPLETED then .error "Cannot cancel completed booking"
  else
    .ok ({ event with
             currentBookings := event.currentBookings - booking.participantIds.length },
         { booking with
             bookingStatus := .CANCELLED
             paymentStatus :=
               if booking.paymentStatus = .PAID then .REFUNDED else booking.paymentStatus })

/-- Stringified (`JSON.stringify`) payloads stored in `Payment.gatewayResponse`,
modelled as an injective encoding of the stringified objects. -/
inductive GatewayResponseJson
  | rawOrder (orderId : String) (amount : ℤ) (currency : String)
  | orderPayment (orderId paymentId : String)
  | offlineData (raw : String)
deriving DecidableEq, Repr

/-- A `Payment` row.  `paymentGateway` mirrors the source lookup
`PAYMENT_GATEWAYS.RAZORPAY = "razorpay"`; the constants table defines no
`OFFLINE` key, so `PAYMENT_GATEWAYS.OFFLINE` is JavaScript `undefined`,
modelled as `none`. -/
structure Payment where
  paymentId : ℕ
  bookingId : ℕ
  transactionId : String
  paymentGateway : Option String
  amount : ℚ
  currency : String
  paymentStatus : PaymentStatus
  gatewayResponse : GatewayResponseJson
deriving DecidableEq, Repr

/-- The persistent state the payment service touches: the event row, the
booking rows, the payment rows, the payment autoincrement id, and a
counter of confirmation-email dispatches
(`EmailService.sendBookingConfirmationEmail`). -/
structure Db where
  event : Event
  bookings : List Booking
  payments : List Payment
  nextPaymentId : ℕ
  emailsSent : ℕ
deriving DecidableEq, Repr

/-- Lookup `prisma.booking.findFirst({ where: { bookingId, userId } })`. -/
def findBooking (db : Db) (bookingId userId : ℕ) : Option Booking :=
  db.bookings.find? (fun b => b.bookingId == bookingId && b.userId == userId)

/-- Lookup `prisma.payment.findFirst({ where: { transactionId } })`. -/
def findPaymentByTransaction (db : Db) (transactionId : String) : Option Payment :=
  db.payments.find? (fun p => p.transactionId == transactionId)

/-- Update `tx.payment.update` setting `paymentStatus = PAID` and the new
`gatewayResponse` on the row(s) with the given `paymentId`. -/
def markPaymentPaid (paymentId : ℕ) (response : GatewayResponseJson)
    (payments : List Payment) : List Payment :=
  payments.map (fun p =>
    if p.paymentId == paymentId then
      { p with paymentStatus := .PAID, gatewayResponse := response }
    else p)

/-- Update `tx.booking.update` setting `bookingStatus = CONFIRMED` and
`paymentStatus = PAID` on the row(s) with the given `bookingId`. -/
def markBookingConfirmedPaid (bookingId : ℕ) (bookings : List Booking) : List Booking :=
  bookings.map (fun b =>
    if b.bookingId == bookingId then
      { b with bookingStatus := .CONFIRMED, paymentStatus := .PAID }
    else b)

/-- Function `PaymentService.verifyRazorpaySignature`: the expected signature is
the keyed hash (`crypto.createHmac("sha256", keySecret)`) of the string
`orderId + "|" + paymentId`; `hmac` is that keyed hash as an opaque
parameter, applied to the secret and the body. -/
def verifyRazorpaySignature (hmac : String → String → String) (keySecret : String)
    (orderId paymentId signature : String) : Bool :=
  let body := orderId ++ "|" ++ paymentId
  let expectedSignature := hmac keySecret body
  expectedSignature == signature

/-- Function `PaymentService.completePayment`.  Signature failure and a missing
payment row `throw` before the transaction; on success one transaction
marks the payment row `PAID` (storing the stringified
`{ orderId, paymentId }` response) and the booking `CONFIRMED/PAID`,
after which the confirmation email is dispatched.  The first component of
the result is the state after the call — unchanged on every error path. -/
def completePayment (hmac : String → String → String) (keySecret : String)
    (razorpayOrderId razorpayPaymentId razorpaySignature : String) (db : Db) :
    Db × Except String Unit :=
  if !(verifyRazorpaySignature hmac keySecret razorpayOrderId razorpayPaymentId
        razorpaySignature) then
    (db, .error "Invalid payment signature")
  else
    match findPaymentByTransaction db razorpayOrderId with
    | none => (db, .error "Payment record not found")
    | some payment =>
      let db1 := { db with
        payments := markPaymentPaid payment.paymentId
          (.orderPayment razorpayOrderId razorpayPaymentId) db.payments,
        bookings := markBookingConfirmedPaid payment.bookingId db.bookings }
      ({ db1 with emailsSent := db1.emailsSent + 1 }, .ok ())

/-- The request `razorpay.orders.create` receives: the amount in paise,
the currency, the receipt (the booking reference) and the notes' event
name — the only event field the source reads. -/
structure GatewayOrderRequest where
  amount : ℤ
  currency : String
  receipt : String
  eventName : String
deriving DecidableEq, Repr

/-- Function `PaymentService.createRazorpayOrder`.  `gw` is the external
`razorpay.orders.create` call, mapping the request to either a failure
(network error or timeout, rethrown by the service) or the created
order's id.  The `PENDING` Payment row is created only after `gw`
returns successfully; the charge amount is
`Math.round(Number(booking.amountPaid) * 100)`. -/
def createRazorpayOrder (gw : GatewayOrderRequest → Except String String)
    (db : Db) (bookingId userId : ℕ) : Db × Except String String :=
  match findBooking db bookingId userId with
  | none => (db, .error "Booking not found")
  | some booking =>
    if booking.paymentStatus = .PAID then (db, .error "Booking is already paid")
    else if booking.bookingStatus = .CANCELLED then
      (db, .error "Cannot pay for cancelled booking")
    else
      let amount : ℤ := round (booking.amountPaid * 100)
      let request : GatewayOrderRequest :=
        { amount := amount, currency := "INR", receipt := booking.bookingReference,
          eventName := db.event.eventName }
      match gw request with
      | .error e => (db, .error e)
      | .ok orderId =>
        ({ db with
             payments := db.payments ++
               [({ paymentId := db.nextPaymentId, bookingId := booking.bookingId,
                   transactionId := orderId, paymentGateway := some "razorpay",
                   amount := booking.amountPaid, currency := "INR",
                   paymentStatus := .PENDING,
                   gatewayResponse := .rawOrder orderId amount "INR" } : Payment)],
             nextPaymentId := db.nextPaymentId + 1 },
         .ok orderId)

/-- Function `PaymentService.recordOfflinePayment`.  The only state guard in the
source is `paymentStatus === PAID`; `bookingStatus` is never checked.  On
the success path one transaction appends the offline Payment row
(`transactionId = "OFFLINE-" + bookingReference`, status `PAID`) and sets
the booking `CONFIRMED/PAID` (update keyed on `bookingId` alone), after
which the confirmation email is dispatched. -/
def recordOfflinePayment (db : Db) (bookingId userId : ℕ) (paymentData : String) :
    Db × Except String Unit :=
  match findBooking db bookingId userId with
  | none => (db, .error "Booking not found")
  | some booking =>
    if booking.paymentStatus = .PAID then (db, .error "Booking is already paid")
    else
      let db1 := { db with
        payments := db.payments ++
          [({ paymentId := db.nextPaymentId, bookingId := booking.bookingId,
              transactionId := "OFFLINE-" ++ booking.bookingReference,
              paymentGateway := none, amount := booking.amountPaid, currency := "INR",
              paymentStatus := .PAID,
              gatewayResponse := .offlineData paymentData } : Payment)],
        nextPaymentId := db.nextPaymentId + 1,
        bookings := markBookingConfirmedPaid bookingId db.bookings }
      ({ db1 with emailsSent := db1.emailsSent + 1 }, .ok ())

/-- A sample upcoming online event used by concrete instances. -/
def demoEvent : Event :=
  { eventName := "Open", eventStatus := .UPCOMING, maxCapacity := some 10,
    currentBookings := 1, entryFee := 100, isOnline := true,
    govtConcessionType := none, govtConcessionValue := 0, categories := [] }

/-- A sample pending booking used by concrete instances. -/
def demoBooking : Booking :=
  { bookingId := 1, userId := 1, bookingReference := "CC-20250101-1234",
    bookingStatus := .PENDING, paymentStatus := .PENDING, amountPaid := 100,
    participantIds := [1] }

/-- A sample pending gateway payment row tied to order `"order1"`. -/
def demoPayment : Payment :=
  { paymentId := 1, bookingId := 1, transactionId := "order1",
    paymentGateway := some "razorpay", amount := 100, currency := "INR",
    paymentStatus := .PENDING, gatewayResponse := .rawOrder "order1" 10000 "INR" }

/-- A sample database state with one pending booking and its pending
gateway payment row. -/
def demoDb : Db :=
  { event := demoEvent, bookings := [demoBooking], payments := [demoPayment],
    nextPaymentId := 2, emailsSent := 0 }

/-- A concrete stand-in for the keyed hash in concrete instances. -/
def demoHmac : String → String → String := fun key body => key ++ body

lemma bookingFeeStep_fst (fee : ℚ) (ct : Option ConcessionType) (cv : ℚ)
    (acc : ℚ × ℚ × ℕ) (p : ParticipantDetail) :
    (bookingFeeStep fee ct cv acc p).1 = acc.1 + codeParticipantFee fee ct cv p.isGovtStudent := by
  unfold bookingFeeStep codeParticipantFee
  split
  · rcases ct with _ | c
    · rfl
    · cases c <;> simp
  · rfl

lemma foldl_bookingFeeStep_fst (fee : ℚ) (ct : Option ConcessionType) (cv : ℚ)
    (ps : List ParticipantDetail) (a b : ℚ) (c : ℕ) :
    (ps.foldl (bookingFeeStep fee ct cv) (a, b, c)).1 =
      a + (ps.map (fun p => codeParticipantFee fee ct cv p.isGovtStudent)).sum := by
  induction ps generalizing a b c with
  | nil => simp
  | cons p ps ih =>
      have hstep := bookingFeeStep_fst fee ct cv (a, b, c) p
      rcases hmk : bookingFeeStep fee ct cv (a, b, c) p with ⟨a1, b1, c1⟩
      simp only [List.foldl_cons, hmk, List.map_cons, List.sum_cons]
      rw [ih]
      rw [hmk] at hstep
      simp only at hstep
      rw [hstep]
      ring

lemma codeParticipantFee_eq_spec (fee : ℚ) (ct : Option ConcessionType) (cv : ℚ)
    (g : Bool) (hf : 0 ≤ fee) :
    codeParticipantFee fee ct cv g = specParticipantFee fee g ct cv := by
  unfold codeParticipantFee specParticipantFee
  rcases ct with _ | c
  · simp
  · cases c <;> cases g <;> by_cases hcv : cv = 0 <;>
      simp [hcv, Option.isSome] <;>
      try exact hf

theorem calculateBookingAmount_eventFee_eq_spec (fee : ℚ) (ct : Option ConcessionType)
    (cv : ℚ) (ps : List ParticipantDetail) (isOnline : Bool) (pf : ℚ) (hf : 0 ≤ fee) :
    (calculateBookingAmount fee ps isOnline ct cv pf).eventFee = specEventFee fee ps ct cv := by
  unfold calculateBookingAmount specEventFee
  simp only [foldl_bookingFeeStep_fst, zero_add]
  congr 1
  exact List.map_congr_left fun p _ => codeParticipantFee_eq_spec fee ct cv p.isGovtStudent hf

lemma bookingFeeStep_value_zero (fee : ℚ) (ct : Option ConcessionType)
    (acc : ℚ × ℚ × ℕ) (p : ParticipantDetail) :
    bookingFeeStep fee ct 0 acc p = (acc.1 + fee, acc.2) := by
  unfold bookingFeeStep
  simp

lemma bookingFeeStep_type_none (fee cv : ℚ) (acc : ℚ × ℚ × ℕ) (p : ParticipantDetail) :
    bookingFeeStep fee none cv acc p = (acc.1 + fee, acc.2) := by
  unfold bookingFeeStep
  simp

lemma foldl_plain_fee (fee : ℚ) (ps : List ParticipantDetail) (a b : ℚ) (c : ℕ) :
    ps.foldl (fun (acc : ℚ × ℚ × ℕ) (_ : ParticipantDetail) => (acc.1 + fee, acc.2)) (a, b, c)
      = (a + fee * ps.length, b, c) := by
  induction ps generalizing a with
  | nil => simp
  | cons p ps ih =>
      simp only [List.foldl_cons, ih, List.length_cons]
      push_cast
      ring_nf

lemma specEventFee_entryFee_zero (ps : List ParticipantDetail)
    (ct : Option ConcessionType) (cv : ℚ) (hcv : 0 ≤ cv) :
    specEventFee 0 ps ct cv = 0 := by
  unfold specEventFee
  apply List.sum_eq_zero
  intro x hx
  simp only [List.mem_map] at hx
  obtain ⟨p, _, hp⟩ := hx
  rw [← hp]
  unfold specParticipantFee
  rcases ct with _ | c
  · rfl
  · cases c <;> cases p.isGovtStudent <;> try simp
    all_goals linarith

/-- C1: `calculateBookingAmount` agrees with the spec's reference pricing
definition on `eventFee`, `platformFee` and `totalAmount` for every input
with `entryFee ≥ 0`, concession `value ≥ 0` and at least one participant;
in the concrete scenario (2 participants, one government student,
`entryFee = 500`, concession `PERCENTAGE 20`, online) it returns
`eventFee = 900`, `platformFee = 0`, `totalAmount = 900`; and with
`entryFee = 0` the total equals the platform fee. -/
theorem pricing_engine_matches_spec (entryFee cv pf : ℚ) (ps : List ParticipantDetail)
    (isOnline : Bool) (ct : Option ConcessionType)
    (hfee : 0 ≤ entryFee) (hcv : 0 ≤ cv) (hps : ps ≠ []) :
    ((calculateBookingAmount entryFee ps isOnline ct cv pf).eventFee
        = specEventFee entryFee ps ct cv ∧
      (calculateBookingAmount entryFee ps isOnline ct cv pf).platformFee
        = specPlatformFee isOnline pf ps.length ∧
      (calculateBookingAmount entryFee ps isOnline ct cv pf).totalAmount
        = specTotalAmount entryFee ps isOnline ct cv pf) ∧
    (calculateBookingAmount 500 [⟨1, false⟩, ⟨2, true⟩] true (some .PERCENTAGE) 20 pf
        = { eventFee := 900, platformFee := 0, totalAmount := 900,
            concessionApplied := 100, govtStudentCount := 1, participantCount := 2 }) ∧
    (entryFee = 0 →
      (calculateBookingAmount entryFee ps isOnline ct cv pf).totalAmount
        = (calculateBookingAmount entryFee ps isOnline ct cv pf).platformFee) := by
  have hev : (calculateBookingAmount entryFee ps isOnline ct cv pf).eventFee
      = specEventFee entryFee ps ct cv :=
    calculateBookingAmount_eventFee_eq_spec entryFee ct cv ps isOnline pf hfee
  have hpl : (calculateBookingAmount entryFee ps isOnline ct cv pf).platformFee
      = specPlatformFee isOnline pf ps.length := rfl
  have htot : (calculateBookingAmount entryFee ps isOnline ct cv pf).totalAmount
      = (calculateBookingAmount entryFee ps isOnline ct cv pf).eventFee
        + (calculateBookingAmount entryFee ps isOnline ct cv pf).platformFee := rfl
  refine ⟨⟨hev, hpl, ?_⟩, ?_, ?_⟩
  · rw [htot, hev, hpl]; rfl
  · norm_num [calculateBookingAmount, bookingFeeStep]
  · intro h0
    rw [htot, hev, h0, specEventFee_entryFee_zero ps ct cv hcv, zero_add]

/-- C9: a concession value of 0 (the guard
`govtConcessionType && govtConcessionValue` is falsy on `0`) behaves
exactly like the absence of any concession policy: the whole
`AmountBreakdown` coincides with the no-policy result and
`govtStudentCount` is 0 even when participants have `isGovtStudent = true`. -/
theorem concession_value_zero_is_no_policy (fee cv pf : ℚ)
    (ps : List ParticipantDetail) (isOnline : Bool) (ct : Option ConcessionType) :
    calculateBookingAmount fee ps isOnline ct 0 pf
        = calculateBookingAmount fee ps isOnline none cv pf ∧
    (calculateBookingAmount fee ps isOnline ct 0 pf).govtStudentCount = 0 ∧
    (calculateBookingAmount fee ps isOnline none cv pf).govtStudentCount = 0 := by
  have hfold : ∀ (ct' : Option ConcessionType) (cv' : ℚ),
      (∀ acc p, bookingFeeStep fee ct' cv' acc p = (acc.1 + fee, acc.2)) →
      ps.foldl (bookingFeeStep fee ct' cv') ((0 : ℚ), (0 : ℚ), (0 : ℕ))
        = (fee * ps.length, 0, 0) := by
    intro ct' cv' hstep
    have : ps.foldl (bookingFeeStep fee ct' cv') ((0 : ℚ), (0 : ℚ), (0 : ℕ))
        = ps.foldl
            (fun (acc : ℚ × ℚ × ℕ) (_ : ParticipantDetail) => (acc.1 + fee, acc.2))
            ((0 : ℚ), (0 : ℚ), (0 : ℕ)) := by
      apply List.foldl_ext
      intro acc p _
      exact hstep acc p
    rw [this, foldl_plain_fee]
    simp
  have h1 := hfold ct 0 (bookingFeeStep_value_zero fee ct)
  have h2 := hfold none cv (bookingFeeStep_type_none fee cv)
  unfold calculateBookingAmount
  rw [h1, h2]
  exact ⟨rfl, rfl, rfl⟩

/-- Witness for `pricing_engine_matches_spec` at a concrete input. -/
theorem pricing_engine_matches_spec_witness :
    (calculateBookingAmount 500 [⟨1, false⟩, ⟨2, true⟩] true (some .PERCENTAGE) 20 10).totalAmount
      = specTotalAmount 500 [⟨1, false⟩, ⟨2, true⟩] true (some .PERCENTAGE) 20 10 :=
  (pricing_engine_matches_spec 500 20 10 [⟨1, false⟩, ⟨2, true⟩] true (some .PERCENTAGE)
    (by norm_num) (by norm_num) (by simp)).1.2.2

/-- C2 counterexample: an `UPCOMING` event with `maxCapacity = 0` — a set
capacity — and `currentBookings + participantCount > maxCapacity` accepts
a one-participant booking instead of failing with `InsufficientSlots`:
the truthiness guard `if (event.maxCapacity)` treats `0` as unset and
skips the capacity check entirely.  Such events are reachable — the admin
event-update path passes `maxCapacity` (including `0`) to Prisma with no
body validation — so the original claim fails on the code. -/
theorem capacity_zero_check_skipped_counterexample :
    (createBooking 10 "CC-20250101-1000" 1 1
        [{ participantId := 1, isGovtStudent := false, age := 20 }]
        { eventName := "e", eventStatus := .UPCOMING, maxCapacity := some 0,
          currentBookings := 0, entryFee := 100, isOnline := true,
          govtConcessionType := none, govtConcessionValue := 0, categories := [] }
        [{ participantId := 1, categoryCode := none }]).map
      (fun r => (r.1.currentBookings, r.2.bookingStatus, r.2.paymentStatus))
      = .ok ((1 : ℤ), .PENDING, .PENDING)
    ∧ (0 : ℤ) + ((1 : ℕ) : ℤ) > 0 :=
  ⟨by rfl, by decide⟩

/-- C2 (amended): `createBooking` rejects a non-`UPCOMING` event; when
`maxCapacity` is set to a nonzero value and
`currentBookings + participantCount > maxCapacity` it rejects with the
`InsufficientSlots` message (with `maxCapacity = 0` the truthiness guard
`if (event.maxCapacity)` skips the capacity check); both rejections happen
before the transaction, so nothing is persisted (the embedding returns the
untouched state by construction of `Except`); on success the counter grows
by exactly the participant count and the booking is `PENDING`/`PENDING`. -/
theorem createBooking_guards_and_effects (pf : ℚ) (ref : String) (bid uid : ℕ)
    (owned : List Participant) (event : Event) (reqs : List ReqParticipant) :
    (event.eventStatus ≠ .UPCOMING →
      createBooking pf ref bid uid owned event reqs
        = .error "Bookings are only available for upcoming events") ∧
    (∀ m : ℤ, m ≠ 0 → event.eventStatus = .UPCOMING → event.maxCapacity = some m →
      event.currentBookings + (reqs.length : ℤ) > m →
      createBooking pf ref bid uid owned event reqs
        = .error "Insufficient slots available") ∧
    (∀ event' booking,
      createBooking pf ref bid uid owned event reqs = .ok (event', booking) →
      event'.currentBookings = event.currentBookings + (reqs.length : ℤ) ∧
      booking.bookingStatus = .PENDING ∧ booking.paymentStatus = .PENDING) := by
  refine ⟨?_, ?_, ?_⟩
  · intro h
    unfold createBooking
    simp [h]
  · intro m hm0 hs hm hover
    have hins : slotsInsufficient event reqs.length = true := by
      unfold slotsInsufficient
      rw [hm]
      show (if m = 0 then false
            else decide (m - event.currentBookings < (reqs.length : ℤ))) = true
      rw [if_neg hm0]
      simp only [decide_eq_true_eq]
      omega
    unfold createBooking
    simp [hs, hins]
  · intro event' booking h
    unfold createBooking at h
    split at h
    · exact absurd h (by simp)
    · split at h
      · exact absurd h (by simp)
      · split at h
        · exact absurd h (by simp)
        · simp only [Except.ok.injEq, Prod.mk.injEq] at h
          obtain ⟨he, hb⟩ := h
          rw [← he, ← hb]
          exact ⟨rfl, rfl, rfl⟩

/-- Witness for `createBooking_guards_and_effects`: a full event books its
last slot, a further one-participant request is rejected with the
`InsufficientSlots` message. -/
theorem createBooking_guards_and_effects_witness :
    createBooking 10 "CC-20250101-1000" 1 1 []
        { eventName := "e", eventStatus := .UPCOMING, maxCapacity := some 5,
          currentBookings := 5, entryFee := 100, isOnline := true,
          govtConcessionType := none, govtConcessionValue := 0, categories := [] }
        [{ participantId := 1, categoryCode := none }]
      = .error "Insufficient slots available" :=
  (createBooking_guards_and_effects 10 "CC-20250101-1000" 1 1 [] _ _).2.1
    5 (by decide) rfl rfl (by decide)

/-- C3: `cancelBooking` rejects already-`CANCELLED` and `COMPLETED`
bookings with an error and no mutation; from any other state it sets
`bookingStatus = CANCELLED`, sets `paymentStatus = REFUNDED` exactly when
it was `PAID` (unchanged otherwise) and decrements the event counter by
exactly the number of participant links, regardless of payment status. -/
theorem cancelBooking_transitions (event : Event) (booking : Booking) :
    (booking.bookingStatus = .CANCELLED →
      cancelBooking event booking = .error "Booking is already cancelled") ∧
    (booking.bookingStatus = .COMPLETED →
      cancelBooking event booking = .error "Cannot cancel completed booking") ∧
    (booking.bookingStatus ≠ .CANCELLED → booking.bookingStatus ≠ .COMPLETED →
      cancelBooking event booking = .ok
        ({ event with
             currentBookings := event.currentBookings - booking.participantIds.length },
         { booking with
             bookingStatus := .CANCELLED
             paymentStatus :=
               if booking.paymentStatus = .PAID then .REFUNDED
               else booking.paymentStatus })) := by
  refine ⟨?_, ?_, ?_⟩
  · intro h
    unfold cancelBooking
    simp [h]
  · intro h
    unfold cancelBooking
    simp [h]
  · intro h1 h2
    unfold cancelBooking
    simp [h1, h2]

/-- Witness for `cancelBooking_transitions`: cancelling a `CONFIRMED/PAID`
two-participant booking refunds it and returns both slots. -/
theorem cancelBooking_transitions_witness :
    cancelBooking
        { eventName := "e", eventStatus := .UPCOMING, maxCapacity := some 5,
          currentBookings := 2, entryFee := 100, isOnline := true,
          govtConcessionType := none, govtConcessionValue := 0, categories := [] }
        { bookingId := 1, userId := 1, bookingReference := "CC-20250101-1000",
          bookingStatus := .CONFIRMED, paymentStatus := .PAID, amountPaid := 200,
          participantIds := [3, 4] }
      = .ok
        ({ eventName := "e", eventStatus := .UPCOMING, maxCapacity := some 5,
           currentBookings := 0, entryFee := 100, isOnline := true,
           govtConcessionType := none, govtConcessionValue := 0, categories := [] },
         { bookingId := 1, userId := 1, bookingReference := "CC-20250101-1000",
           bookingStatus := .CANCELLED, paymentStatus := .REFUNDED, amountPaid := 200,
           participantIds := [3, 4] }) :=
  (cancelBooking_transitions _ _).2.2 (by decide) (by decide)

/-- C4 counterexample: cancelling a pending one-participant booking on an
event whose counter is already `0` succeeds and drives `currentBookings`
to `-1`; the claimed floor at 0 would demand `max 0 (0 - 1) = 0`. -/
theorem release_floor_counterexample :
    (cancelBooking
        { eventName := "e", eventStatus := .UPCOMING, maxCapacity := none,
          currentBookings := 0, entryFee := 0, isOnline := true,
          govtConcessionType := none, govtConcessionValue := 0, categories := [] }
        { bookingId := 1, userId := 1, bookingReference := "CC-20250101-1000",
          bookingStatus := .PENDING, paymentStatus := .PENDING, amountPaid := 0,
          participantIds := [7] }).map (fun r => r.1.currentBookings)
      = .ok (-1) ∧ ((-1 : ℤ) ≠ max 0 ((0 : ℤ) - 1)) := by
  exact ⟨rfl, by decide⟩

/-- C4 (amended): a successful cancellation sets the event counter to
exactly the previous value minus the booking's participant count, with no
floor at 0 — the counter can become negative. -/
theorem release_decrements_without_floor (event : Event) (booking : Booking)
    (event' : Event) (booking' : Booking)
    (h : cancelBooking event booking = .ok (event', booking')) :
    event'.currentBookings = event.currentBookings - (booking.participantIds.length : ℤ) := by
  unfold cancelBooking at h
  split at h
  · exact absurd h (by simp)
  · split at h
    · exact absurd h (by simp)
    · simp only [Except.ok.injEq, Prod.mk.injEq] at h
      obtain ⟨he, _⟩ := h
      rw [← he]

/-- Witness for `release_decrements_without_floor` at the concrete input
of the counterexample: the counter drops from 0 to -1. -/
theorem release_decrements_without_floor_witness :
    ({ eventName := "e", eventStatus := .UPCOMING, maxCapacity := none,
       currentBookings := -1, entryFee := 0, isOnline := true,
       govtConcessionType := none, govtConcessionValue := 0,
       categories := [] } : Event).currentBookings
      = ({ eventName := "e", eventStatus := .UPCOMING, maxCapacity := none,
           currentBookings := 0, entryFee := 0, isOnline := true,
           govtConcessionType := none, govtConcessionValue := 0,
           categories := [] } : Event).currentBookings
        - (({ bookingId := 1, userId := 1, bookingReference := "CC-20250101-1000",
              bookingStatus := .PENDING, paymentStatus := .PENDING, amountPaid := 0,
              participantIds := [7] } : Booking).participantIds.length : ℤ) :=
  release_decrements_without_floor
    { eventName := "e", eventStatus := .UPCOMING, maxCapacity := none,
      currentBookings := 0, entryFee := 0, isOnline := true,
      govtConcessionType := none, govtConcessionValue := 0, categories := [] }
    { bookingId := 1, userId := 1, bookingReference := "CC-20250101-1000",
      bookingStatus := .PENDING, paymentStatus := .PENDING, amountPaid := 0,
      participantIds := [7] }
    { eventName := "e", eventStatus := .UPCOMING, maxCapacity := none,
      currentBookings := -1, entryFee := 0, isOnline := true,
      govtConcessionType := none, govtConcessionValue := 0, categories := [] }
    { bookingId := 1, userId := 1, bookingReference := "CC-20250101-1000",
      bookingStatus := .CANCELLED, paymentStatus := .PENDING, amountPaid := 0,
      participantIds := [7] }
    (by rfl)

lemma markPaymentPaid_idem (k : ℕ) (resp : GatewayResponseJson) (ps : List Payment) :
    markPaymentPaid k resp (markPaymentPaid k resp ps) = markPaymentPaid k resp ps := by
  unfold markPaymentPaid
  rw [List.map_map]
  apply List.map_congr_left
  intro p _
  by_cases h : p.paymentId == k
  · simp [Function.comp, h]
  · simp [Function.comp, h]

lemma markBookingConfirmedPaid_idem (k : ℕ) (bs : List Booking) :
    markBookingConfirmedPaid k (markBookingConfirmedPaid k bs)
      = markBookingConfirmedPaid k bs := by
  unfold markBookingConfirmedPaid
  rw [List.map_map]
  apply List.map_congr_left
  intro b _
  by_cases h : b.bookingId == k
  · simp [Function.comp, h]
  · simp [Function.comp, h]

lemma find?_map_preserved (f : Payment → Payment) (pred : Payment → Bool)
    (hf : ∀ p, pred (f p) = pred p) (ps : List Payment) :
    (ps.map f).find? pred = (ps.find? pred).map f := by
  induction ps with
  | nil => rfl
  | cons p ps ih =>
      cases hp : pred p
      · simp [List.find?_cons, hf, hp, ih]
      · simp [List.find?_cons, hf, hp]

lemma find?_markPaymentPaid (oid : String) (k : ℕ) (resp : GatewayResponseJson)
    (ps : List Payment) :
    (markPaymentPaid k resp ps).find? (fun q => q.transactionId == oid)
      = (ps.find? (fun q => q.transactionId == oid)).map
          (fun q => if q.paymentId == k
                    then { q with paymentStatus := .PAID, gatewayResponse := resp }
                    else q) := by
  unfold markPaymentPaid
  apply find?_map_preserved
  intro p
  by_cases h : p.paymentId == k
  · simp [h]
  · simp [h]

lemma mem_markBookingConfirmedPaid (k : ℕ) (bs : List Booking) (b : Booking)
    (hb : b ∈ markBookingConfirmedPaid k bs) (hid : b.bookingId = k) :
    b.bookingStatus = .CONFIRMED ∧ b.paymentStatus = .PAID := by
  unfold markBookingConfirmedPaid at hb
  rw [List.mem_map] at hb
  obtain ⟨a, _, ha⟩ := hb
  by_cases h : a.bookingId == k
  · rw [if_pos h] at ha
    rw [← ha]
    exact ⟨rfl, rfl⟩
  · rw [if_neg h] at ha
    subst ha
    simp only [beq_iff_eq] at h
    exact absurd hid h

/-- Successful-path computation of `completePayment`: with a valid
signature and a payment row found for the order id, the call marks that
row paid, confirms the booking, bumps the email counter and succeeds. -/
lemma completePayment_of_found (hmac : String → String → String)
    (keySecret oid pid sig : String) (db : Db) (p : Payment)
    (hv : verifyRazorpaySignature hmac keySecret oid pid sig = true)
    (hp : findPaymentByTransaction db oid = some p) :
    completePayment hmac keySecret oid pid sig db
      = ({ db with
             payments := markPaymentPaid p.paymentId (.orderPayment oid pid) db.payments,
             bookings := markBookingConfirmedPaid p.bookingId db.bookings,
             emailsSent := db.emailsSent + 1 }, .ok ()) := by
  unfold completePayment
  rw [hv]
  simp [hp]

/-- C6: `completePayment` recomputes the expected signature as the keyed
hash of `orderId + "|" + paymentId`; whenever the supplied signature
differs it rejects with the invalid-signature error and returns the state
unchanged — in particular a `PENDING/PENDING` booking stays
`PENDING/PENDING`. -/
theorem tampered_signature_rejected (hmac : String → String → String)
    (keySecret oid pid sig : String) (db : Db)
    (h : sig ≠ hmac keySecret (oid ++ "|" ++ pid)) :
    completePayment hmac keySecret oid pid sig db
      = (db, .error "Invalid payment signature") := by
  have hv : (hmac keySecret (oid ++ "|" ++ pid) == sig) = false :=
    beq_eq_false_iff_ne.mpr (Ne.symm h)
  unfold completePayment verifyRazorpaySignature
  simp [hv]

/-- Witness for `tampered_signature_rejected`: a wrong signature for
order `"order1"` / payment `"pay1"` under `demoHmac` leaves `demoDb`
untouched and errors. -/
theorem tampered_signature_rejected_witness :
    completePayment demoHmac "sec" "order1" "pay1" "bad" demoDb
      = (demoDb, .error "Invalid payment signature") :=
  tampered_signature_rejected demoHmac "sec" "order1" "pay1" "bad" demoDb (by decide)

/-- C10: with a correctly verifying signature but no Payment row whose
`transactionId` equals the gateway order id, `completePayment` fails with
the payment-record-not-found error and mutates nothing. -/
theorem missing_payment_record_rejected (hmac : String → String → String)
    (keySecret oid pid sig : String) (db : Db)
    (hsig : sig = hmac keySecret (oid ++ "|" ++ pid))
    (hnone : findPaymentByTransaction db oid = none) :
    completePayment hmac keySecret oid pid sig db
      = (db, .error "Payment record not found") := by
  have hv : (hmac keySecret (oid ++ "|" ++ pid) == sig) = true := by
    rw [hsig]
    exact beq_self_eq_true _
  unfold completePayment verifyRazorpaySignature
  simp [hv, hnone]

/-- Witness for `missing_payment_record_rejected`: a valid signature for
an unknown order id `"ghost"` errors without touching the state. -/
theorem missing_payment_record_rejected_witness :
    completePayment demoHmac "sec" "ghost" "pay1" "secghost|pay1" demoDb
      = (demoDb, .error "Payment record not found") :=
  missing_payment_record_rejected demoHmac "sec" "ghost" "pay1" "secghost|pay1" demoDb
    (by rfl) (by rfl)

lemma findPayment_after_completePayment (db : Db) (oid : String) (p : Payment)
    (bs : List Booking) (e : ℕ) (r : GatewayResponseJson)
    (hp : findPaymentByTransaction db oid = some p) :
    findPaymentByTransaction
        { db with payments := markPaymentPaid p.paymentId r db.payments,
                  bookings := bs, emailsSent := e } oid
      = some { p with paymentStatus := .PAID, gatewayResponse := r } := by
  unfold findPaymentByTransaction at *
  simp only
  rw [find?_markPaymentPaid, hp]
  simp

/-- C5 (amended): replaying `completePayment` with the same verified
evidence leaves the booking in `CONFIRMED/PAID`; the second call is a
no-op success on booking, payment and event state (no error, no capacity
mutation) — but the confirmation email is dispatched again on every
successful call, so the notification side effect does occur twice. -/
theorem confirmation_idempotent_except_email (hmac : String → String → String)
    (keySecret oid pid sig : String) (db : Db) (p : Payment)
    (hsig : sig = hmac keySecret (oid ++ "|" ++ pid))
    (hp : findPaymentByTransaction db oid = some p) :
    (completePayment hmac keySecret oid pid sig db).2 = .ok () ∧
    (completePayment hmac keySecret oid pid sig db).1.event = db.event ∧
    (∀ b ∈ (completePayment hmac keySecret oid pid sig db).1.bookings,
        b.bookingId = p.bookingId →
        b.bookingStatus = .CONFIRMED ∧ b.paymentStatus = .PAID) ∧
    completePayment hmac keySecret oid pid sig
        (completePayment hmac keySecret oid pid sig db).1
      = ({ (completePayment hmac keySecret oid pid sig db).1 with
             emailsSent := (completePayment hmac keySecret oid pid sig db).1.emailsSent + 1 },
         .ok ()) := by
  have hv : verifyRazorpaySignature hmac keySecret oid pid sig = true := by
    unfold verifyRazorpaySignature
    rw [hsig]
    exact beq_self_eq_true _
  have h1 := completePayment_of_found hmac keySecret oid pid sig db p hv hp
  refine ⟨?_, ?_, ?_, ?_⟩
  · rw [h1]
  · rw [h1]
  · rw [h1]
    intro b hb hbid
    exact mem_markBookingConfirmedPaid p.bookingId db.bookings b hb hbid
  · have hfind2 : findPaymentByTransaction (completePayment hmac keySecret oid pid sig db).1 oid
        = some { p with paymentStatus := .PAID,
                        gatewayResponse := .orderPayment oid pid } := by
      rw [h1]
      exact findPayment_after_completePayment db oid p _ _ _ hp
    have h2 := completePayment_of_found hmac keySecret oid pid sig
      (completePayment hmac keySecret oid pid sig db).1
      { p with paymentStatus := .PAID, gatewayResponse := .orderPayment oid pid } hv hfind2
    rw [h2, h1]
    simp only
    rw [markPaymentPaid_idem, markBookingConfirmedPaid_idem]

/-- C5 counterexample: with the same verified evidence, the first and the
second `completePayment` call each dispatch the confirmation email —
after two calls the dispatch counter is 2, not 1, so the notification
side effect is performed twice (the second call itself succeeds and
leaves the booking state alone, as the claim expects). -/
theorem double_confirmation_sends_email_twice :
    (completePayment demoHmac "sec" "order1" "pay1" "secorder1|pay1" demoDb).1.emailsSent
      = 1 ∧
    (completePayment demoHmac "sec" "order1" "pay1" "secorder1|pay1"
        (completePayment demoHmac "sec" "order1" "pay1" "secorder1|pay1" demoDb).1).2
      = .ok () ∧
    (completePayment demoHmac "sec" "order1" "pay1" "secorder1|pay1"
        (completePayment demoHmac "sec" "order1" "pay1" "secorder1|pay1" demoDb).1).1.emailsSent
      = 2 :=
  ⟨rfl, rfl, rfl⟩

/-- Witness for `confirmation_idempotent_except_email` at the concrete
replay scenario on `demoDb`. -/
theorem confirmation_idempotent_except_email_witness :
    (completePayment demoHmac "sec" "order1" "pay1" "secorder1|pay1" demoDb).2 = .ok () :=
  (confirmation_idempotent_except_email demoHmac "sec" "order1" "pay1" "secorder1|pay1"
    demoDb demoPayment (by rfl) (by rfl)).1

/-- C7: `createRazorpayOrder` fails without creating any Payment row when
the booking is missing or foreign (one `findFirst` on both ids), already
`PAID`, or `CANCELLED`.  Because the gateway `gw` is universally
quantified, the hypotheses on `gw`'s value at the request built from the
stored `amountPaid` (`round(amountPaid * 100)` paise) pin down exactly
what the service sends — the live event fee is never consulted — and the
`PENDING` Payment row tied to the returned order id is appended only when
`gw` succeeds; a failing or timed-out gateway call leaves the state
unchanged, so no orphaned Payment row exists. -/
theorem createOrder_guards_and_row_creation
    (gw : GatewayOrderRequest → Except String String) (db : Db) (bid uid : ℕ) :
    (findBooking db bid uid = none →
      createRazorpayOrder gw db bid uid = (db, .error "Booking not found")) ∧
    (∀ b, findBooking db bid uid = some b → b.paymentStatus = .PAID →
      createRazorpayOrder gw db bid uid = (db, .error "Booking is already paid")) ∧
    (∀ b, findBooking db bid uid = some b → b.paymentStatus ≠ .PAID →
      b.bookingStatus = .CANCELLED →
      createRazorpayOrder gw db bid uid
        = (db, .error "Cannot pay for cancelled booking")) ∧
    (∀ b e, findBooking db bid uid = some b → b.paymentStatus ≠ .PAID →
      b.bookingStatus ≠ .CANCELLED →
      gw { amount := round (b.amountPaid * 100), currency := "INR",
           receipt := b.bookingReference, eventName := db.event.eventName } = .error e →
      createRazorpayOrder gw db bid uid = (db, .error e)) ∧
    (∀ b oid, findBooking db bid uid = some b → b.paymentStatus ≠ .PAID →
      b.bookingStatus ≠ .CANCELLED →
      gw { amount := round (b.amountPaid * 100), currency := "INR",
           receipt := b.bookingReference, eventName := db.event.eventName } = .ok oid →
      createRazorpayOrder gw db bid uid
        = ({ db with
               payments := db.payments ++
                 [({ paymentId := db.nextPaymentId, bookingId := b.bookingId,
                     transactionId := oid, paymentGateway := some "razorpay",
                     amount := b.amountPaid, currency := "INR",
                     paymentStatus := .PENDING,
                     gatewayResponse :=
                       .rawOrder oid (round (b.amountPaid * 100)) "INR" } : Payment)],
               nextPaymentId := db.nextPaymentId + 1 },
           .ok oid)) := by
  refine ⟨?_, ?_, ?_, ?_, ?_⟩
  · intro h
    unfold createRazorpayOrder
    simp [h]
  · intro b hb hpaid
    unfold createRazorpayOrder
    simp [hb, hpaid]
  · intro b hb hpaid hc
    unfold createRazorpayOrder
    simp [hb, hpaid, hc]
  · intro b e hb hpaid hc hgw
    unfold createRazorpayOrder
    simp [hb, hpaid, hc, hgw]
  · intro b oid hb hpaid hc hgw
    unfold createRazorpayOrder
    simp [hb, hpaid, hc, hgw]

/-- Witness for `createOrder_guards_and_row_creation`: a gateway timeout
during order creation for the pending `demoBooking` propagates the error
and leaves the state — in particular the Payment table — untouched. -/
theorem createOrder_guards_and_row_creation_witness :
    createRazorpayOrder (fun _ => .error "gateway timeout") demoDb 1 1
      = (demoDb, .error "gateway timeout") :=
  (createOrder_guards_and_row_creation (fun _ => .error "gateway timeout") demoDb 1 1).2.2.2.1
    demoBooking "gateway timeout" (by rfl) (by decide) (by decide) (by rfl)

/-- C8 counterexample: a `CANCELLED` booking whose `paymentStatus` is
still `PENDING` is not in the joint state `(PENDING, PENDING)`, yet
`recordOfflinePayment` accepts it — the source checks only
`paymentStatus === PAID` — and flips it to `(CONFIRMED, PAID)`. -/
theorem offline_payment_accepts_cancelled_booking :
    (recordOfflinePayment
        { event := demoEvent,
          bookings := [{ demoBooking with bookingStatus := .CANCELLED }],
          payments := [], nextPaymentId := 1, emailsSent := 0 } 1 1 "cash").2 = .ok () ∧
    ((recordOfflinePayment
        { event := demoEvent,
          bookings := [{ demoBooking with bookingStatus := .CANCELLED }],
          payments := [], nextPaymentId := 1, emailsSent := 0 } 1 1 "cash").1.bookings.map
      (fun b => (b.bookingStatus, b.paymentStatus))) = [(.CONFIRMED, .PAID)] :=
  ⟨rfl, rfl⟩

/-- C8 (amended): `recordOfflinePayment` is rejected with no mutation
exactly when the booking is missing/foreign or its `paymentStatus` is
already `PAID`; for any found booking with `paymentStatus ≠ PAID` —
regardless of `bookingStatus`, including `CANCELLED` — it sets the
booking to `(CONFIRMED, PAID)` and appends the offline Payment row, with
no verification beyond ownership of the booking. -/
theorem recordOfflinePayment_guards (db : Db) (bid uid : ℕ) (data : String) :
    (findBooking db bid uid = none →
      recordOfflinePayment db bid uid data = (db, .error "Booking not found")) ∧
    (∀ b, findBooking db bid uid = some b → b.paymentStatus = .PAID →
      recordOfflinePayment db bid uid data = (db, .error "Booking is already paid")) ∧
    (∀ b, findBooking db bid uid = some b → b.paymentStatus ≠ .PAID →
      recordOfflinePayment db bid uid data
        = ({ db with
               payments := db.payments ++
                 [({ paymentId := db.nextPaymentId, bookingId := b.bookingId,
                     transactionId := "OFFLINE-" ++ b.bookingReference,
                     paymentGateway := none, amount := b.amountPaid, currency := "INR",
                     paymentStatus := .PAID,
                     gatewayResponse := .offlineData data } : Payment)],
               nextPaymentId := db.nextPaymentId + 1,
               bookings := markBookingConfirmedPaid bid db.bookings,
               emailsSent := db.emailsSent + 1 }, .ok ())) := by
  refine ⟨?_, ?_, ?_⟩
  · intro h
    unfold recordOfflinePayment
    simp [h]
  · intro b hb hpaid
    unfold recordOfflinePayment
    simp [hb, hpaid]
  · intro b hb hpaid
    unfold recordOfflinePayment
    simp [hb, hpaid]

/-- Witness for `recordOfflinePayment_guards`: recording an offline
payment for the pending `demoBooking` confirms it and appends the
offline Payment row. -/
theorem recordOfflinePayment_guards_witness :
    recordOfflinePayment demoDb 1 1 "cash"
      = ({ demoDb with
             payments := demoDb.payments ++
               [({ paymentId := demoDb.nextPaymentId, bookingId := demoBooking.bookingId,
                   transactionId := "OFFLINE-" ++ demoBooking.bookingReference,
                   paymentGateway := none, amount := demoBooking.amountPaid,
                   currency := "INR", paymentStatus := .PAID,
                   gatewayResponse := .offlineData "cash" } : Payment)],
             nextPaymentId := demoDb.nextPaymentId + 1,
             bookings := markBookingConfirmedPaid 1 demoDb.bookings,
             emailsSent := demoDb.emailsSent + 1 }, .ok ()) :=
  (recordOfflinePayment_guards demoDb 1 1 "cash").2.2 demoBooking (by rfl) (by decide)

end CrystalChess
